import Mathlib

/-!
Verification of the drug-likeness screening app (`src/app.py`).

The app's analysis logic is embedded shallowly:

* a property mapping (`Dict[str, float]`) becomes `Props := String → Option ℚ`;
  `properties.get(key, 0)` becomes `pget`;
* dictionaries built by insertion become association lists
  `List (String × _)` in insertion order;
* the fallible descriptor calculation (`mol.calcdesc`, which can raise)
  becomes an `Except String Descriptors` field of the molecule;
* external interactions (HTTP, toolkit invocations, inline warnings) become
  an explicit `Effect` trace;
* Streamlit session state becomes `SessionState := String → Option String`.

Numbers are embedded as rationals: every numeric operation in the script is
a comparison against a constant or exact ring arithmetic.
-/

namespace BiopypeApp

/-- A property mapping, `Dict[str, float]` in the script. -/
def Props : Type := String → Option ℚ

/-- Embedding of `properties.get(key, 0)` — dictionary lookup with default `0`. -/
def pget (p : Props) (k : String) : ℚ := (p k).getD 0

/-- One row of the Lipinski table: `{'value': …, 'pass': …, 'limit': …}`. -/
structure RuleCheck where
  value : ℚ
  passOk : Bool
  limit : String
  deriving Repr, DecidableEq

/-- Return value of `check_lipinski_rule`:
`{'rules': …, 'violations': …, 'passes': …}`. -/
structure LipinskiResult where
  rules : List (String × RuleCheck)
  violations : ℕ
  passes : Bool
  deriving Repr, DecidableEq

/-- Embedding of `check_lipinski_rule` (src/app.py lines 225–277): four threshold rows,
a violation counter incremented on each failed threshold, and
`passes = violations <= 1`. -/
def check_lipinski_rule (properties : Props) : LipinskiResult :=
  let mw := pget properties "molecular_weight"
  let logp := pget properties "logp"
  let hbd := pget properties "hbd"
  let hba := pget properties "hba"
  let rules : List (String × RuleCheck) :=
    [("MW < 500 Da", ⟨mw, decide (mw < 500), "< 500"⟩),
     ("LogP < 5", ⟨logp, decide (logp < 5), "< 5"⟩),
     ("HBD ≤ 5", ⟨hbd, decide (hbd ≤ 5), "≤ 5"⟩),
     ("HBA ≤ 10", ⟨hba, decide (hba ≤ 10), "≤ 10"⟩)]
  let violations : ℕ :=
    (if 500 ≤ mw then 1 else 0) + (if 5 ≤ logp then 1 else 0) +
      (if 5 < hbd then 1 else 0) + (if 10 < hba then 1 else 0)
  { rules := rules, violations := violations, passes := decide (violations ≤ 1) }

/-- One named rule block of `check_additional_drug_rules`
(`{'name': …, 'rules': …, 'violations': …, 'passes': …}`);
each inner row keeps `('value', 'pass')`. -/
structure NamedRuleResult where
  name : String
  rules : List (String × ℚ × Bool)
  violations : ℕ
  passes : Bool
  deriving Repr, DecidableEq

/-- Return value of `check_additional_drug_rules`: the `'veber'` and
`'egan'` entries. -/
structure AdditionalRules where
  veber : NamedRuleResult
  egan : NamedRuleResult
  deriving Repr, DecidableEq

/-- Embedding of `check_additional_drug_rules` (src/app.py lines 279–322): Veber rules
(TPSA ≤ 140, rotatable bonds ≤ 10) and Egan rules (TPSA ≤ 131.6,
LogP ≤ 5.88), each passing iff it has zero violations. -/
def check_additional_drug_rules (properties : Props) : AdditionalRules :=
  let tpsa := pget properties "TPSA"
  let rotb := pget properties "nrotb"
  let logp := pget properties "logp"
  let veber_violations : ℕ :=
    (if 140 < tpsa then 1 else 0) + (if 10 < rotb then 1 else 0)
  let egan_violations : ℕ :=
    (if (131.6 : ℚ) < tpsa then 1 else 0) + (if (5.88 : ℚ) < logp then 1 else 0)
  { veber :=
      { name := "Veber Rules"
        rules := [("TPSA ≤ 140 Ų", (tpsa, decide (tpsa ≤ 140))),
                  ("Rotatable bonds ≤ 10", (rotb, decide (rotb ≤ 10)))]
        violations := veber_violations
        passes := decide (veber_violations = 0) }
    egan :=
      { name := "Egan Rules"
        rules := [("TPSA ≤ 131.6 Ų", (tpsa, decide (tpsa ≤ (131.6 : ℚ)))),
                  ("LogP ≤ 5.88", (logp, decide (logp ≤ (5.88 : ℚ))))]
        violations := egan_violations
        passes := decide (egan_violations = 0) } }

/-- A Python dict value of the ADMET result: either a categorical label
(string) or a number. -/
inductive PVal where
  | s (v : String)
  | n (v : ℚ)
  deriving Repr, DecidableEq

/-- The `'hia'` / `'hia_probability'` entries of `predict_admet_properties`
(src/app.py lines 136–146). -/
def hiaEntries (p : Props) : List (String × PVal) :=
  let mw := pget p "molecular_weight"
  let tpsa := pget p "TPSA"
  let rotb := pget p "nrotb"
  if tpsa ≤ 140 ∧ mw ≤ 500 ∧ rotb ≤ 10 then
    [("hia", PVal.s "High"), ("hia_probability", PVal.n 0.85)]
  else if tpsa ≤ 200 ∧ mw ≤ 700 then
    [("hia", PVal.s "Medium"), ("hia_probability", PVal.n 0.65)]
  else
    [("hia", PVal.s "Low"), ("hia_probability", PVal.n 0.25)]

/-- The `'bbb'` / `'bbb_probability'` entries (lines 148–158). -/
def bbbEntries (p : Props) : List (String × PVal) :=
  let mw := pget p "molecular_weight"
  let logp := pget p "logp"
  let tpsa := pget p "TPSA"
  let hbd := pget p "hbd"
  if tpsa ≤ 90 ∧ mw ≤ 450 ∧ logp ≤ 5 ∧ hbd ≤ 3 then
    [("bbb", PVal.s "High"), ("bbb_probability", PVal.n 0.80)]
  else if tpsa ≤ 120 ∧ mw ≤ 500 then
    [("bbb", PVal.s "Medium"), ("bbb_probability", PVal.n 0.50)]
  else
    [("bbb", PVal.s "Low"), ("bbb_probability", PVal.n 0.20)]

/-- The hERG risk score accumulator (lines 163–168). -/
def hergRiskScore (p : Props) : ℕ :=
  let mw := pget p "molecular_weight"
  let logp := pget p "logp"
  let tpsa := pget p "TPSA"
  let aromatic_rings := pget p "naromrings"
  (if 3 < logp then 1 else 0) + (if 300 < mw then 1 else 0) +
    (if 2 ≤ aromatic_rings then 1 else 0) + (if tpsa < 75 then 1 else 0)

/-- The `'herg'` / `'herg_probability'` entries (lines 170–178). -/
def hergEntries (p : Props) : List (String × PVal) :=
  if 3 ≤ hergRiskScore p then
    [("herg", PVal.s "High Risk"), ("herg_probability", PVal.n 0.75)]
  else if hergRiskScore p = 2 then
    [("herg", PVal.s "Medium Risk"), ("herg_probability", PVal.n 0.45)]
  else
    [("herg", PVal.s "Low Risk"), ("herg_probability", PVal.n 0.15)]

/-- The `'cyp_inhibition'` / `'cyp_probability'` entries (lines 180–187). -/
def cypEntries (p : Props) : List (String × PVal) :=
  let mw := pget p "molecular_weight"
  let logp := pget p "logp"
  let aromatic_rings := pget p "naromrings"
  if 3 < logp ∧ 300 < mw ∧ 1 ≤ aromatic_rings then
    [("cyp_inhibition", PVal.s "Likely"), ("cyp_probability", PVal.n 0.70)]
  else
    [("cyp_inhibition", PVal.s "Unlikely"), ("cyp_probability", PVal.n 0.30)]

/-- The hepatotoxicity score accumulator (lines 191–194). -/
def hepatotoxScore (p : Props) : ℕ :=
  let mw := pget p "molecular_weight"
  let logp := pget p "logp"
  let aromatic_rings := pget p "naromrings"
  (if 5 < logp then 2 else 0) + (if 500 < mw then 1 else 0) +
    (if 3 ≤ aromatic_rings then 1 else 0)

/-- The `'hepatotoxicity'` entry (lines 196–201). -/
def hepatotoxicityEntries (p : Props) : List (String × PVal) :=
  if 3 ≤ hepatotoxScore p then [("hepatotoxicity", PVal.s "High Risk")]
  else if 2 ≤ hepatotoxScore p then [("hepatotoxicity", PVal.s "Medium Risk")]
  else [("hepatotoxicity", PVal.s "Low Risk")]

/-- The `'mutagenicity'` / `'ames_probability'` entries (lines 203–210). -/
def mutagenicityEntries (p : Props) : List (String × PVal) :=
  let heavy_atoms := pget p "heavy_atoms"
  let aromatic_rings := pget p "naromrings"
  if 3 ≤ aromatic_rings ∧ 20 < heavy_atoms then
    [("mutagenicity", PVal.s "Positive"), ("ames_probability", PVal.n 0.60)]
  else
    [("mutagenicity", PVal.s "Negative"), ("ames_probability", PVal.n 0.20)]

/-- The `estimated_ld50` intermediate (lines 212–219). -/
def estimatedLd50 (p : Props) : ℚ :=
  let mw := pget p "molecular_weight"
  let logp := pget p "logp"
  if logp < 0 then 2000 + |logp| * 500
  else if 4 < logp then max 50 (1000 - (logp - 4) * 200)
  else 1500 - mw * 0.5 + logp * 100

/-- Embedding of `predict_admet_properties` (src/app.py lines 121–223): the `admet`
dict in its insertion order, ending with
`admet['ld50_estimated'] = max(50, estimated_ld50)`. -/
def predict_admet_properties (properties : Props) : List (String × PVal) :=
  hiaEntries properties ++ (bbbEntries properties ++ (hergEntries properties ++
    (cypEntries properties ++ (hepatotoxicityEntries properties ++
      (mutagenicityEntries properties ++
        [("ld50_estimated", PVal.n (max 50 (estimatedLd50 properties)))])))))

/-- The descriptor values obtained from `mol.calcdesc` when it does not
raise: the three Lipinski calls (`logP`, `HBD`, `HBA1`) and the combined
call for the additional descriptors. -/
structure Descriptors where
  logP : ℚ
  HBD : ℚ
  HBA1 : ℚ
  TPSA : ℚ
  nrotb : ℚ
  natomsm : ℚ
  nrings : ℚ
  naromrings : ℚ
  density : ℚ
  MR : ℚ
  deriving Repr, DecidableEq

/-- A PyBel molecule as the script uses it: plain attributes (`molwt`,
`exactmass`, `atoms` as atomic numbers, `charge`, `formula`) plus the
outcome of the descriptor calculation — `.error` models `calcdesc`
raising an exception. -/
structure Molecule where
  molwt : ℚ
  exactmass : ℚ
  atoms : List ℕ
  charge : ℤ
  formula : String
  desc : Except String Descriptors

/-- An observable external interaction of the script: outbound HTTP
(never emitted by this file, but expressible so its absence is a theorem),
toolkit invocations, and inline Streamlit warnings (`st.error`). -/
inductive Effect where
  | httpPost (url : String) (jsonBody : String) (timeout : ℚ)
  | httpGet (url : String) (timeout : ℚ)
  | toolkitReadstring (format : String) (smiles : String)
  | toolkitMake3D
  | stError (msg : String)
  deriving Repr, DecidableEq

/-- Whether an effect is an outbound HTTP request. -/
def Effect.isHttp : Effect → Bool
  | .httpPost _ _ _ => true
  | .httpGet _ _ => true
  | _ => false

/-- Embedding of `calculate_molecular_properties` (src/app.py lines 71–119): on success
the full descriptor dict in insertion order; when the descriptor
calculation raises, an inline `st.error` warning and the static placeholder
dict that still carries `molecular_weight` and `exact_mass`. The function
is total: the exception never propagates. -/
def calculate_molecular_properties (mol : Molecule) :
    List Effect × List (String × ℚ) :=
  match mol.desc with
  | .ok d =>
      ([],
       [("molecular_weight", mol.molwt), ("exact_mass", mol.exactmass),
        ("logp", d.logP), ("hbd", d.HBD), ("hba", d.HBA1),
        ("TPSA", d.TPSA), ("nrotb", d.nrotb), ("natomsm", d.natomsm),
        ("nrings", d.nrings), ("naromrings", d.naromrings),
        ("density", d.density), ("MR", d.MR),
        ("heavy_atoms", ((mol.atoms.filter (fun a => 1 < a)).length : ℚ)),
        ("formal_charge", (mol.charge : ℚ))])
  | .error e =>
      ([Effect.stError ("Error calculating properties: " ++ e)],
       [("molecular_weight", mol.molwt), ("exact_mass", mol.exactmass),
        ("logp", 0), ("hbd", 0), ("hba", 0), ("TPSA", 0), ("nrotb", 0),
        ("heavy_atoms", 0), ("formal_charge", 0)])

/-- Embedding of `create_molecule_from_smiles` (src/app.py lines 324–337): returns
`None` without any toolkit call when PyBel is unavailable; otherwise calls
the toolkit's `readstring("smi", smiles)` (the call is recorded as an
effect whether or not it raises), then `make3D`, and reports parse failures
as an inline warning plus `None`. `readstringFn` is the toolkit binding. -/
def create_molecule_from_smiles
    (readstringFn : String → String → Except String Molecule)
    (pybelAvailable : Bool) (smiles : String) :
    List Effect × Option Molecule :=
  if pybelAvailable = false then ([], none)
  else
    match readstringFn "smi" smiles with
    | .ok mol =>
        ([Effect.toolkitReadstring "smi" smiles, Effect.toolkitMake3D],
         some mol)
    | .error e =>
        ([Effect.toolkitReadstring "smi" smiles,
          Effect.stError ("Error creating molecule from SMILES: " ++ e)],
         none)

/-- Streamlit session state: a mutable string-keyed mapping. -/
def SessionState : Type := String → Option String

/-- Assignment `st.session_state.<k> = v`. -/
def sessionWrite (k v : String) (s : SessionState) : SessionState :=
  fun q => if q = k then some v else s q

/-- Deletion `del st.session_state.<k>` (on a mapping this is also the identity when
the key is absent, matching the guarded `del` in the script). -/
def sessionDelete (k : String) (s : SessionState) : SessionState :=
  fun q => if q = k then none else s q

/-- The session state with no keys set. -/
def emptySession : SessionState := fun _ => none

/-- Clicking `Load <name>` (src/app.py lines 544–547):
`st.session_state.selected_smiles = smiles`. -/
def clickExampleButton (smiles : String) (s : SessionState) : SessionState :=
  sessionWrite "selected_smiles" smiles s

/-- Lines 550–551: the text input is overridden by `selected_smiles` when
that session key is present. -/
def resolveSmilesInput (s : SessionState) (textInput : String) : String :=
  (s "selected_smiles").getD textInput

/-- View a freshly built property dict as a `Props` mapping. -/
def propsOf (l : List (String × ℚ)) : Props := fun k => l.lookup k

/-- Everything one analysis computes (lines 581–604). -/
structure AnalysisResult where
  properties : List (String × ℚ)
  lipinski : LipinskiResult
  additional : AdditionalRules
  admet : Option (List (String × PVal))

/-- Outcome of one click of `Analyze Molecule`. -/
structure RunOutcome where
  effects : List Effect
  result : Option AnalysisResult
  finalState : SessionState

/-- The computational part of the main analysis block (src/app.py lines
567–604): stop if PyBel is unavailable, build the molecule, calculate
properties, then run the Lipinski check, the additional rules and (when
`Detailed ADMET Analysis` is checked) the ADMET prediction. It takes no
session state: the block reads nothing from `st.session_state`. -/
def analysisOf (readstringFn : String → String → Except String Molecule)
    (pybelAvailable detailedAdmet : Bool) (smilesInput : String) :
    List Effect × Option AnalysisResult :=
  if pybelAvailable = false then ([], none)
  else
    match create_molecule_from_smiles readstringFn true smilesInput with
    | (effs, none) => (effs, none)
    | (effs, some mol) =>
        let calcRes := calculate_molecular_properties mol
        let p := propsOf calcRes.2
        (effs ++ calcRes.1,
         some
           { properties := calcRes.2
             lipinski := check_lipinski_rule p
             additional := check_additional_drug_rules p
             admet := if detailedAdmet then
                 some (predict_admet_properties p)
               else none })

/-- The main analysis block (src/app.py lines 562–604): its only touch of
session state is clearing `selected_smiles` at the start (lines 563–565);
everything else is `analysisOf`. -/
def runAnalysis (readstringFn : String → String → Except String Molecule)
    (pybelAvailable detailedAdmet : Bool) (s : SessionState)
    (smilesInput : String) : RunOutcome :=
  { effects := (analysisOf readstringFn pybelAvailable detailedAdmet smilesInput).1
    result := (analysisOf readstringFn pybelAvailable detailedAdmet smilesInput).2
    finalState := sessionDelete "selected_smiles" s }

/-- A demo molecule (ethanol-like) whose descriptor calculation succeeds;
used to instantiate hypotheses on concrete inputs. -/
def demoDescriptors : Descriptors :=
  { logP := -0.18, HBD := 1, HBA1 := 1, TPSA := 20.23, nrotb := 0,
    natomsm := 3, nrings := 0, naromrings := 0, density := 0.789,
    MR := 12.9 }

/-- A concrete molecule whose descriptor calculation succeeds. -/
def demoMol : Molecule :=
  { molwt := 46.07, exactmass := 46.04, atoms := [6, 6, 8], charge := 0,
    formula := "C2H6O", desc := Except.ok demoDescriptors }

/-- A concrete molecule whose descriptor calculation raises. -/
def failMol : Molecule :=
  { molwt := 180.16, exactmass := 180.04, atoms := [], charge := 0,
    formula := "C9H8O4", desc := Except.error "boom" }

/-- A toolkit binding stub that parses every SMILES to the demo
molecule. -/
def toolkitStub : String → String → Except String Molecule :=
  fun _ _ => Except.ok demoMol

/-- The aspirin property mapping used in the spec's example:
MW ≈ 180, LogP ≈ 1.19, HBD = 1, HBA = 4. -/
def aspirinProps : Props := fun k =>
  if k = "molecular_weight" then some 180
  else if k = "logp" then some (1.19 : ℚ)
  else if k = "hbd" then some 1
  else if k = "hba" then some 4
  else none

/-- The aspirin mapping stores MW = 180. -/
theorem aspirin_mw : pget aspirinProps "molecular_weight" = 180 := by
  rw [pget, aspirinProps]; rw [if_pos rfl]; rfl

/-- The aspirin mapping stores LogP = 1.19. -/
theorem aspirin_logp : pget aspirinProps "logp" = (1.19 : ℚ) := by
  rw [pget, aspirinProps]; rw [if_neg (by decide), if_pos rfl]; rfl

/-- The aspirin mapping stores HBD = 1. -/
theorem aspirin_hbd : pget aspirinProps "hbd" = 1 := by
  rw [pget, aspirinProps]
  rw [if_neg (by decide), if_neg (by decide), if_pos rfl]; rfl

/-- The aspirin mapping stores HBA = 4. -/
theorem aspirin_hba : pget aspirinProps "hba" = 4 := by
  rw [pget, aspirinProps]
  rw [if_neg (by decide), if_neg (by decide), if_neg (by decide), if_pos rfl]
  rfl

/-- C1: for every input property mapping with MW < 500, LogP < 5, HBD ≤ 5
and HBA ≤ 10 (e.g. aspirin), `check_lipinski_rule` reports 0 violations and
passes. -/
theorem C1_lipinski_compliant_passes (p : Props)
    (hmw : pget p "molecular_weight" < 500) (hlogp : pget p "logp" < 5)
    (hhbd : pget p "hbd" ≤ 5) (hhba : pget p "hba" ≤ 10) :
    (check_lipinski_rule p).violations = 0 ∧ (check_lipinski_rule p).passes = true := by
  simp only [check_lipinski_rule]
  rw [if_neg (not_le.mpr hmw), if_neg (not_le.mpr hlogp),
    if_neg (not_lt.mpr hhbd), if_neg (not_lt.mpr hhba)]
  simp

/-- C1 witness: aspirin (MW = 180, LogP = 1.19, HBD = 1, HBA = 4) satisfies
the hypotheses, so its Lipinski check reports 0 violations and passes. -/
theorem C1_lipinski_aspirin_witness :
    (check_lipinski_rule aspirinProps).violations = 0 ∧
      (check_lipinski_rule aspirinProps).passes = true :=
  C1_lipinski_compliant_passes aspirinProps (by rw [aspirin_mw]; norm_num)
    (by rw [aspirin_logp]; norm_num) (by rw [aspirin_hbd]; norm_num)
    (by rw [aspirin_hba]; norm_num)

/-- C8: the result of `check_lipinski_rule` is internally consistent:
`violations` counts exactly the rules whose `pass` field is false, hence is
at most 4, and `passes` holds iff `violations ≤ 1`. -/
theorem C8_lipinski_internal_consistency (p : Props) :
    (check_lipinski_rule p).violations =
        ((check_lipinski_rule p).rules.filter (fun r => r.2.passOk = false)).length ∧
      (check_lipinski_rule p).violations ≤ 4 ∧
      ((check_lipinski_rule p).passes = true ↔ (check_lipinski_rule p).violations ≤ 1) := by
  simp only [check_lipinski_rule]
  by_cases h1 : pget p "molecular_weight" < 500 <;>
    by_cases h2 : pget p "logp" < 5 <;>
      by_cases h3 : pget p "hbd" ≤ 5 <;>
        by_cases h4 : pget p "hba" ≤ 10 <;>
          simp_all [not_lt, not_le, List.filter, le_of_lt, not_le.mpr,
            not_lt.mpr, decide_eq_true_eq]

/-- Lookup in a concatenated dict hits the left part when the key is
there. -/
theorem lookup_append_of_some {α β : Type} [BEq α] {l₁ l₂ : List (α × β)}
    {k : α} {v : β} (h : l₁.lookup k = some v) :
    (l₁ ++ l₂).lookup k = some v := by
  induction l₁ with
  | nil => simp [List.lookup] at h
  | cons a t ih =>
    rcases a with ⟨a₁, a₂⟩
    simp only [List.cons_append, List.lookup] at h ⊢
    cases hk : (k == a₁) <;> simp [hk] at h ⊢ <;> simp_all

/-- Lookup in a concatenated dict falls through to the right part when the
key is absent on the left. -/
theorem lookup_append_of_none {α β : Type} [BEq α] {l₁ l₂ : List (α × β)}
    {k : α} (h : l₁.lookup k = none) :
    (l₁ ++ l₂).lookup k = l₂.lookup k := by
  induction l₁ with
  | nil => simp
  | cons a t ih =>
    rcases a with ⟨a₁, a₂⟩
    simp only [List.cons_append, List.lookup] at h ⊢
    cases hk : (k == a₁)
    · simp [hk] at h ⊢
      simp_all
    · simp [hk] at h

/-- Every branch of the HIA block sets the `'hia'` key. -/
theorem hiaEntries_lookup_hia (p : Props) :
    ∃ v, (hiaEntries p).lookup "hia" = some v := by
  simp only [hiaEntries]
  split_ifs <;> exact ⟨_, rfl⟩

/-- The HIA block sets no key besides `'hia'` and `'hia_probability'`. -/
theorem hiaEntries_lookup_other (p : Props) (k : String) (h1 : k ≠ "hia")
    (h2 : k ≠ "hia_probability") : (hiaEntries p).lookup k = none := by
  simp only [hiaEntries]
  split_ifs <;>
    simp [List.lookup, beq_eq_false_iff_ne.mpr h1, beq_eq_false_iff_ne.mpr h2]

/-- Every branch of the BBB block sets the `'bbb'` key. -/
theorem bbbEntries_lookup_bbb (p : Props) :
    ∃ v, (bbbEntries p).lookup "bbb" = some v := by
  simp only [bbbEntries]
  split_ifs <;> exact ⟨_, rfl⟩

/-- The BBB block sets no key besides `'bbb'` and `'bbb_probability'`. -/
theorem bbbEntries_lookup_other (p : Props) (k : String) (h1 : k ≠ "bbb")
    (h2 : k ≠ "bbb_probability") : (bbbEntries p).lookup k = none := by
  simp only [bbbEntries]
  split_ifs <;>
    simp [List.lookup, beq_eq_false_iff_ne.mpr h1, beq_eq_false_iff_ne.mpr h2]

/-- Every branch of the hERG block sets the `'herg'` key. -/
theorem hergEntries_lookup_herg (p : Props) :
    ∃ v, (hergEntries p).lookup "herg" = some v := by
  simp only [hergEntries]
  split_ifs <;> exact ⟨_, rfl⟩

/-- The hERG block sets no key besides `'herg'` and `'herg_probability'`. -/
theorem hergEntries_lookup_other (p : Props) (k : String) (h1 : k ≠ "herg")
    (h2 : k ≠ "herg_probability") : (hergEntries p).lookup k = none := by
  simp only [hergEntries]
  split_ifs <;>
    simp [List.lookup, beq_eq_false_iff_ne.mpr h1, beq_eq_false_iff_ne.mpr h2]

/-- Every branch of the CYP block sets the `'cyp_inhibition'` key. -/
theorem cypEntries_lookup_cyp (p : Props) :
    ∃ v, (cypEntries p).lookup "cyp_inhibition" = some v := by
  simp only [cypEntries]
  split_ifs <;> exact ⟨_, rfl⟩

/-- The CYP block sets no key besides `'cyp_inhibition'` and
`'cyp_probability'`. -/
theorem cypEntries_lookup_other (p : Props) (k : String)
    (h1 : k ≠ "cyp_inhibition") (h2 : k ≠ "cyp_probability") :
    (cypEntries p).lookup k = none := by
  simp only [cypEntries]
  split_ifs <;>
    simp [List.lookup, beq_eq_false_iff_ne.mpr h1, beq_eq_false_iff_ne.mpr h2]

/-- Every branch of the hepatotoxicity block sets the `'hepatotoxicity'`
key. -/
theorem hepatotoxicityEntries_lookup_hepato (p : Props) :
    ∃ v, (hepatotoxicityEntries p).lookup "hepatotoxicity" = some v := by
  simp only [hepatotoxicityEntries]
  split_ifs <;> exact ⟨_, rfl⟩

/-- The hepatotoxicity block sets no key besides `'hepatotoxicity'`. -/
theorem hepatotoxicityEntries_lookup_other (p : Props) (k : String)
    (h1 : k ≠ "hepatotoxicity") : (hepatotoxicityEntries p).lookup k = none := by
  simp only [hepatotoxicityEntries]
  split_ifs <;> simp [List.lookup, beq_eq_false_iff_ne.mpr h1]

/-- Every branch of the mutagenicity block sets the `'mutagenicity'`
key. -/
theorem mutagenicityEntries_lookup_muta (p : Props) :
    ∃ v, (mutagenicityEntries p).lookup "mutagenicity" = some v := by
  simp only [mutagenicityEntries]
  split_ifs <;> exact ⟨_, rfl⟩

/-- The mutagenicity block sets no key besides `'mutagenicity'` and
`'ames_probability'`. -/
theorem mutagenicityEntries_lookup_other (p : Props) (k : String)
    (h1 : k ≠ "mutagenicity") (h2 : k ≠ "ames_probability") :
    (mutagenicityEntries p).lookup k = none := by
  simp only [mutagenicityEntries]
  split_ifs <;>
    simp [List.lookup, beq_eq_false_iff_ne.mpr h1, beq_eq_false_iff_ne.mpr h2]

/-- C3: for every input property mapping, `predict_admet_properties`
returns a mapping containing a label for each of the seven ADMET risk
categories: `'hia'`, `'bbb'`, `'herg'`, `'cyp_inhibition'`,
`'hepatotoxicity'`, `'mutagenicity'` and `'ld50_estimated'`. -/
theorem C3_admet_labels_all_seven (p : Props) :
    (∃ v, (predict_admet_properties p).lookup "hia" = some v) ∧
      (∃ v, (predict_admet_properties p).lookup "bbb" = some v) ∧
      (∃ v, (predict_admet_properties p).lookup "herg" = some v) ∧
      (∃ v, (predict_admet_properties p).lookup "cyp_inhibition" = some v) ∧
      (∃ v, (predict_admet_properties p).lookup "hepatotoxicity" = some v) ∧
      (∃ v, (predict_admet_properties p).lookup "mutagenicity" = some v) ∧
      (∃ v, (predict_admet_properties p).lookup "ld50_estimated" = some v) := by
  unfold predict_admet_properties
  refine ⟨?_, ?_, ?_, ?_, ?_, ?_, ?_⟩
  · obtain ⟨v, hv⟩ := hiaEntries_lookup_hia p
    exact ⟨v, lookup_append_of_some hv⟩
  · rw [lookup_append_of_none (hiaEntries_lookup_other p _ (by decide) (by decide))]
    obtain ⟨v, hv⟩ := bbbEntries_lookup_bbb p
    exact ⟨v, lookup_append_of_some hv⟩
  · rw [lookup_append_of_none (hiaEntries_lookup_other p _ (by decide) (by decide)),
      lookup_append_of_none (bbbEntries_lookup_other p _ (by decide) (by decide))]
    obtain ⟨v, hv⟩ := hergEntries_lookup_herg p
    exact ⟨v, lookup_append_of_some hv⟩
  · rw [lookup_append_of_none (hiaEntries_lookup_other p _ (by decide) (by decide)),
      lookup_append_of_none (bbbEntries_lookup_other p _ (by decide) (by decide)),
      lookup_append_of_none (hergEntries_lookup_other p _ (by decide) (by decide))]
    obtain ⟨v, hv⟩ := cypEntries_lookup_cyp p
    exact ⟨v, lookup_append_of_some hv⟩
  · rw [lookup_append_of_none (hiaEntries_lookup_other p _ (by decide) (by decide)),
      lookup_append_of_none (bbbEntries_lookup_other p _ (by decide) (by decide)),
      lookup_append_of_none (hergEntries_lookup_other p _ (by decide) (by decide)),
      lookup_append_of_none (cypEntries_lookup_other p _ (by decide) (by decide))]
    obtain ⟨v, hv⟩ := hepatotoxicityEntries_lookup_hepato p
    exact ⟨v, lookup_append_of_some hv⟩
  · rw [lookup_append_of_none (hiaEntries_lookup_other p _ (by decide) (by decide)),
      lookup_append_of_none (bbbEntries_lookup_other p _ (by decide) (by decide)),
      lookup_append_of_none (hergEntries_lookup_other p _ (by decide) (by decide)),
      lookup_append_of_none (cypEntries_lookup_other p _ (by decide) (by decide)),
      lookup_append_of_none (hepatotoxicityEntries_lookup_other p _ (by decide))]
    obtain ⟨v, hv⟩ := mutagenicityEntries_lookup_muta p
    exact ⟨v, lookup_append_of_some hv⟩
  · rw [lookup_append_of_none (hiaEntries_lookup_other p _ (by decide) (by decide)),
      lookup_append_of_none (bbbEntries_lookup_other p _ (by decide) (by decide)),
      lookup_append_of_none (hergEntries_lookup_other p _ (by decide) (by decide)),
      lookup_append_of_none (cypEntries_lookup_other p _ (by decide) (by decide)),
      lookup_append_of_none (hepatotoxicityEntries_lookup_other p _ (by decide)),
      lookup_append_of_none (mutagenicityEntries_lookup_other p _ (by decide) (by decide))]
    exact ⟨_, rfl⟩

/-- C9: for every input property mapping, the `'ld50_estimated'` value is
`max 50 estimated_ld50`, hence at least 50; the display's
"High acute toxicity" branch (`ld50 ≤ 50`) is therefore reachable only at
exactly 50. -/
theorem C9_ld50_minimum_fifty (p : Props) :
    ∃ v : ℚ,
      (predict_admet_properties p).lookup "ld50_estimated" = some (PVal.n v) ∧
        50 ≤ v ∧ (v ≤ 50 ↔ v = 50) := by
  refine ⟨max 50 (estimatedLd50 p), ?_, le_max_left _ _, ?_⟩
  · unfold predict_admet_properties
    rw [lookup_append_of_none (hiaEntries_lookup_other p _ (by decide) (by decide)),
      lookup_append_of_none (bbbEntries_lookup_other p _ (by decide) (by decide)),
      lookup_append_of_none (hergEntries_lookup_other p _ (by decide) (by decide)),
      lookup_append_of_none (cypEntries_lookup_other p _ (by decide) (by decide)),
      lookup_append_of_none (hepatotoxicityEntries_lookup_other p _ (by decide)),
      lookup_append_of_none (mutagenicityEntries_lookup_other p _ (by decide) (by decide))]
    rfl
  · constructor
    · intro h
      exact le_antisymm h (le_max_left _ _)
    · intro h
      exact le_of_eq h

/-- The aspirin mapping has no TPSA entry, so `.get` defaults to 0. -/
theorem aspirin_tpsa : pget aspirinProps "TPSA" = 0 := by
  rw [pget, aspirinProps]
  rw [if_neg (by decide), if_neg (by decide), if_neg (by decide),
    if_neg (by decide)]
  rfl

/-- The aspirin mapping has no rotatable-bond entry, so `.get` defaults
to 0. -/
theorem aspirin_nrotb : pget aspirinProps "nrotb" = 0 := by
  rw [pget, aspirinProps]
  rw [if_neg (by decide), if_neg (by decide), if_neg (by decide),
    if_neg (by decide)]
  rfl

/-- The `'hia'` lookup on the whole ADMET dict is the lookup on the HIA
block. -/
theorem predict_lookup_hia_eq (p : Props) :
    (predict_admet_properties p).lookup "hia" = (hiaEntries p).lookup "hia" := by
  unfold predict_admet_properties
  obtain ⟨v, hv⟩ := hiaEntries_lookup_hia p
  rw [lookup_append_of_some hv, hv]

/-- C10: if `predict_admet_properties` labels HIA as "High" (which takes
TPSA ≤ 140, MW ≤ 500 and rotatable bonds ≤ 10), then
`check_additional_drug_rules` on the same mapping reports the Veber rules
as passing with zero violations. -/
theorem C10_hia_high_implies_veber (p : Props)
    (h : (predict_admet_properties p).lookup "hia" = some (PVal.s "High")) :
    (check_additional_drug_rules p).veber.violations = 0 ∧
      (check_additional_drug_rules p).veber.passes = true := by
  rw [predict_lookup_hia_eq] at h
  by_cases hc : pget p "TPSA" ≤ 140 ∧ pget p "molecular_weight" ≤ 500 ∧
      pget p "nrotb" ≤ 10
  · obtain ⟨ht, -, hr⟩ := hc
    simp only [check_additional_drug_rules]
    rw [if_neg (not_lt.mpr ht), if_neg (not_lt.mpr hr)]
    simp
  · exfalso
    simp only [hiaEntries] at h
    rw [if_neg hc] at h
    split_ifs at h <;> simp [List.lookup] at h

/-- C10 witness: aspirin's mapping labels HIA as "High" and its Veber
check passes with zero violations. -/
theorem C10_hia_high_veber_witness :
    (predict_admet_properties aspirinProps).lookup "hia" =
        some (PVal.s "High") ∧
      (check_additional_drug_rules aspirinProps).veber.violations = 0 ∧
      (check_additional_drug_rules aspirinProps).veber.passes = true := by
  have h : (predict_admet_properties aspirinProps).lookup "hia" =
      some (PVal.s "High") := by
    rw [predict_lookup_hia_eq]
    simp only [hiaEntries]
    rw [if_pos ⟨by rw [aspirin_tpsa]; norm_num,
      by rw [aspirin_mw]; norm_num, by rw [aspirin_nrotb]; norm_num⟩]
    rfl
  exact ⟨h, C10_hia_high_implies_veber aspirinProps h⟩

/-- C2: when the descriptor calculation raises, the failure is caught,
reported as an inline `st.error` warning, and
`calculate_molecular_properties` returns (rather than propagating the
exception) the static placeholder mapping that still carries the
molecule's `molecular_weight` and `exact_mass`. -/
theorem C2_placeholder_on_descriptor_failure (mol : Molecule) (e : String)
    (h : mol.desc = Except.error e) :
    calculate_molecular_properties mol =
      ([Effect.stError ("Error calculating properties: " ++ e)],
       [("molecular_weight", mol.molwt), ("exact_mass", mol.exactmass),
        ("logp", 0), ("hbd", 0), ("hba", 0), ("TPSA", 0), ("nrotb", 0),
        ("heavy_atoms", 0), ("formal_charge", 0)]) := by
  unfold calculate_molecular_properties
  rw [h]

/-- C2 witness: a molecule whose descriptor calculation raises `"boom"`
yields the warning effect and the placeholder mapping carrying its
MW = 180.16 and exact mass = 180.04. -/
theorem C2_placeholder_witness :
    failMol.desc = Except.error "boom" ∧
      calculate_molecular_properties failMol =
        ([Effect.stError ("Error calculating properties: " ++ "boom")],
         [("molecular_weight", (180.16 : ℚ)), ("exact_mass", (180.04 : ℚ)),
          ("logp", 0), ("hbd", 0), ("hba", 0), ("TPSA", 0), ("nrotb", 0),
          ("heavy_atoms", 0), ("formal_charge", 0)]) :=
  ⟨rfl, C2_placeholder_on_descriptor_failure failMol "boom" rfl⟩

/-- C4: the analysis is stateless and recomputed per request — the effects
and the result of `runAnalysis` (which invokes `check_lipinski_rule`,
`check_additional_drug_rules` and `predict_admet_properties` on the
computed mapping) are identical across any two prior session states; only
the explicit `selected_smiles` clearing touches state. -/
theorem C4_stateless_recompute
    (readstringFn : String → String → Except String Molecule)
    (pybelAvailable detailedAdmet : Bool) (s₁ s₂ : SessionState)
    (input : String) :
    (runAnalysis readstringFn pybelAvailable detailedAdmet s₁ input).effects =
        (runAnalysis readstringFn pybelAvailable detailedAdmet s₂ input).effects ∧
      (runAnalysis readstringFn pybelAvailable detailedAdmet s₁ input).result =
        (runAnalysis readstringFn pybelAvailable detailedAdmet s₂ input).result :=
  ⟨rfl, rfl⟩

/-- C5 counterexample: a concrete analysis of `"CCO"` performs toolkit
calls but not a single outbound HTTP request, while still producing a
result — refuting that every analysis request issues an HTTP POST/GET. -/
theorem C5_no_http_counterexample :
    (runAnalysis toolkitStub true true emptySession "CCO").effects.filter
        Effect.isHttp = [] ∧
      (runAnalysis toolkitStub true true emptySession "CCO").effects =
        [Effect.toolkitReadstring "smi" "CCO", Effect.toolkitMake3D] ∧
      (runAnalysis toolkitStub true true emptySession "CCO").result.isSome =
        true :=
  ⟨rfl, rfl, rfl⟩

/-- C5 amended: no analysis request ever issues an outbound HTTP request;
the only external interface exercised is the local toolkit binding. -/
theorem C5_amended_never_http
    (readstringFn : String → String → Except String Molecule)
    (pybelAvailable detailedAdmet : Bool) (s : SessionState)
    (input : String) :
    (runAnalysis readstringFn pybelAvailable detailedAdmet s input).effects.all
      (fun e => !e.isHttp) = true := by
  show (analysisOf readstringFn pybelAvailable detailedAdmet input).1.all
    (fun e => !e.isHttp) = true
  cases pybelAvailable with
  | false => rfl
  | true =>
    cases hrs : readstringFn "smi" input with
    | error e =>
      simp [analysisOf, create_molecule_from_smiles, hrs, Effect.isHttp]
    | ok mol =>
      cases hd : mol.desc with
      | error e =>
        simp [analysisOf, create_molecule_from_smiles, hrs,
          calculate_molecular_properties, hd, Effect.isHttp]
      | ok d =>
        simp [analysisOf, create_molecule_from_smiles, hrs,
          calculate_molecular_properties, hd, Effect.isHttp]

/-- C6: descriptors come from the local cheminformatics binding invoked as
a function call: `create_molecule_from_smiles` passes the SMILES text to
the toolkit's `readstring` (first recorded effect) and returns its
molecule, and `calculate_molecular_properties` returns the mapping from
descriptor name to numeric value for that molecule. -/
theorem C6_local_toolkit_descriptors
    (readstringFn : String → String → Except String Molecule)
    (smiles : String) (mol : Molecule) (d : Descriptors) :
    (create_molecule_from_smiles readstringFn true smiles).1.head? =
        some (Effect.toolkitReadstring "smi" smiles) ∧
      (readstringFn "smi" smiles = Except.ok mol →
        (create_molecule_from_smiles readstringFn true smiles).2 = some mol) ∧
      (mol.desc = Except.ok d →
        (calculate_molecular_properties mol).2 =
          [("molecular_weight", mol.molwt), ("exact_mass", mol.exactmass),
           ("logp", d.logP), ("hbd", d.HBD), ("hba", d.HBA1),
           ("TPSA", d.TPSA), ("nrotb", d.nrotb), ("natomsm", d.natomsm),
           ("nrings", d.nrings), ("naromrings", d.naromrings),
           ("density", d.density), ("MR", d.MR),
           ("heavy_atoms", ((mol.atoms.filter (fun a => 1 < a)).length : ℚ)),
           ("formal_charge", (mol.charge : ℚ))]) := by
  refine ⟨?_, ?_, ?_⟩
  · unfold create_molecule_from_smiles
    cases h : readstringFn "smi" smiles <;> simp [h]
  · intro h
    unfold create_molecule_from_smiles
    simp [h]
  · intro h
    unfold calculate_molecular_properties
    rw [h]

/-- C6 witness: the stub toolkit on `"CCO"` records the `readstring` call
first, returns the demo molecule, and that molecule's property mapping
lists its descriptor values. -/
theorem C6_local_toolkit_witness :
    (create_molecule_from_smiles toolkitStub true "CCO").1.head? =
        some (Effect.toolkitReadstring "smi" "CCO") ∧
      (create_molecule_from_smiles toolkitStub true "CCO").2 = some demoMol ∧
      (calculate_molecular_properties demoMol).2 =
        [("molecular_weight", demoMol.molwt), ("exact_mass", demoMol.exactmass),
         ("logp", demoDescriptors.logP), ("hbd", demoDescriptors.HBD),
         ("hba", demoDescriptors.HBA1), ("TPSA", demoDescriptors.TPSA),
         ("nrotb", demoDescriptors.nrotb), ("natomsm", demoDescriptors.natomsm),
         ("nrings", demoDescriptors.nrings),
         ("naromrings", demoDescriptors.naromrings),
         ("density", demoDescriptors.density), ("MR", demoDescriptors.MR),
         ("heavy_atoms", ((demoMol.atoms.filter (fun a => 1 < a)).length : ℚ)),
         ("formal_charge", (demoMol.charge : ℚ))] :=
  ⟨(C6_local_toolkit_descriptors toolkitStub "CCO" demoMol demoDescriptors).1,
   (C6_local_toolkit_descriptors toolkitStub "CCO" demoMol demoDescriptors).2.1
     rfl,
   (C6_local_toolkit_descriptors toolkitStub "CCO" demoMol demoDescriptors).2.2
     rfl⟩

/-- C7: the only session variable the script maintains is
`selected_smiles`: clicking an example button writes it, the text input is
overridden by reading it, the analysis deletes it at the start, and no
step writes any other session key (frame condition for every other key
`k`). -/
theorem C7_session_frame
    (readstringFn : String → String → Except String Molecule)
    (pybelAvailable detailedAdmet : Bool) (s : SessionState)
    (smiles text input k : String) (hk : k ≠ "selected_smiles") :
    clickExampleButton smiles s "selected_smiles" = some smiles ∧
      clickExampleButton smiles s k = s k ∧
      resolveSmilesInput s text = (s "selected_smiles").getD text ∧
      (runAnalysis readstringFn pybelAvailable detailedAdmet s
          input).finalState "selected_smiles" = none ∧
      (runAnalysis readstringFn pybelAvailable detailedAdmet s
          input).finalState k = s k := by
  refine ⟨?_, ?_, rfl, ?_, ?_⟩
  · show (if "selected_smiles" = "selected_smiles"
        then some smiles else s "selected_smiles") = some smiles
    rw [if_pos rfl]
  · show (if k = "selected_smiles" then some smiles else s k) = s k
    rw [if_neg hk]
  · show (if "selected_smiles" = "selected_smiles"
        then none else s "selected_smiles") = none
    rw [if_pos rfl]
  · show (if k = "selected_smiles" then none else s k) = s k
    rw [if_neg hk]

/-- C7 witness: with the empty session, loading `"CC"` sets only
`selected_smiles`, the input override reads it, and a run of the analysis
leaves every other key (here `"other"`) untouched. -/
theorem C7_session_frame_witness :
    clickExampleButton "CC" emptySession "selected_smiles" = some "CC" ∧
      clickExampleButton "CC" emptySession "other" = emptySession "other" ∧
      resolveSmilesInput emptySession "t" =
        (emptySession "selected_smiles").getD "t" ∧
      (runAnalysis toolkitStub true true emptySession
          "CCO").finalState "selected_smiles" = none ∧
      (runAnalysis toolkitStub true true emptySession
          "CCO").finalState "other" = emptySession "other" :=
  C7_session_frame toolkitStub true true emptySession "CC" "t" "CCO" "other"
    (by decide)

end BiopypeApp
